import Mathlib

/-!
Shallow embedding of the WhatsApp chatbot backend (`chatbot-backend/app`).

The store (SQL database of `models.py`) is modelled as explicit state: lists
of `User` and `Message` rows plus id counters and a logical clock that stamps
`created_at` (the code uses `datetime.utcnow`, which is strictly increasing
across the sequential awaits of one request; the clock makes that explicit).

External I/O (the Groq completion API, the Meta WhatsApp delivery API) is
modelled by an `Env` of oracle outcomes, and every outward call made by the
pipeline is recorded in an `Effects` trace so that claims about "zero
Completion/Delivery calls" or "one send attempted" are statable.
-/

/-- `MessageRole` enum of `models.py`. -/
inductive MessageRole where
  | user
  | assistant
deriving DecidableEq, Repr

/-- `MessageRole.value` (the `str` payload of the Python enum). -/
def MessageRole.value : MessageRole → String
  | .user => "user"
  | .assistant => "assistant"

/-- `User` row of `models.py` (`users` table). -/
structure User where
  id : Nat
  phone_number : String
  name : Option String
  is_active : Bool
  created_at : Nat
  updated_at : Nat
deriving DecidableEq, Repr

/-- `Message` row of `models.py` (`messages` table). -/
structure Message where
  id : Nat
  user_id : Nat
  role : MessageRole
  content : String
  meta_message_id : Option String
  created_at : Nat
deriving DecidableEq, Repr

/-- The relational store plus the id sequences and the `utcnow` clock. -/
structure Store where
  users : List User
  messages : List Message
  nextUserId : Nat
  nextMessageId : Nat
  clock : Nat
deriving DecidableEq, Repr

def emptyStore : Store := ⟨[], [], 1, 1, 0⟩

/-- `session.add(User(...)); commit; refresh`: insert a fresh `users` row,
stamping `created_at`/`updated_at` from the clock. -/
def Store.createUser (s : Store) (phone : String) (name : Option String) :
    User × Store :=
  let u : User :=
    { id := s.nextUserId, phone_number := phone, name := name,
      is_active := true, created_at := s.clock, updated_at := s.clock }
  (u, { s with
          users := s.users ++ [u], nextUserId := s.nextUserId + 1,
          clock := s.clock + 1 })

/-- `session.add(Message(...)); commit`: insert a fresh `messages` row. -/
def Store.addMessage (s : Store) (uid : Nat) (role : MessageRole)
    (content : String) (metaId : Option String) : Message × Store :=
  let m : Message :=
    { id := s.nextMessageId, user_id := uid, role := role, content := content,
      meta_message_id := metaId, created_at := s.clock }
  (m, { s with
          messages := s.messages ++ [m],
          nextMessageId := s.nextMessageId + 1, clock := s.clock + 1 })

/-- `select(User).where(User.phone_number == phone)` / `scalar_one_or_none`. -/
def Store.findUserByPhone (s : Store) (phone : String) : Option User :=
  s.users.find? (fun u => u.phone_number == phone)

/-- In-place SQLAlchemy mutation `user.name = name; commit`: the row with the
given id gets the new name.  (The code does not refresh `updated_at`.) -/
def Store.setUserName (s : Store) (uid : Nat) (n : String) : Store :=
  { s with
      users := s.users.map
        (fun v => if v.id == uid then { v with name := some n } else v) }

/-- `get_or_create_user` of `routers/whatsapp.py`: resolve the user by phone
number; if found and a truthy `name` differs from the stored one, update it;
otherwise create a new row. -/
def get_or_create_user (s : Store) (phone_number : String)
    (name : Option String) : User × Store :=
  match s.findUserByPhone phone_number with
  | some user =>
    -- Python: `if name and user.name != name`
    match name with
    | some n =>
      if n ≠ "" ∧ user.name ≠ some n then
        ({ user with name := some n }, s.setUserName user.id n)
      else (user, s)
    | none => (user, s)
  | none => s.createUser phone_number name

/-- One `{role, content}` dict fed to the chat-completion API. -/
structure ChatMsg where
  role : String
  content : String
deriving DecidableEq, Repr

/-- Insert into a list kept in `created_at`-descending order
(`order_by(desc(Message.created_at))`). -/
def insertDesc (m : Message) : List Message → List Message
  | [] => [m]
  | x :: xs =>
    if x.created_at ≤ m.created_at then m :: x :: xs
    else x :: insertDesc m xs

/-- Sort by `created_at` descending, the store's `order_by(desc(...))`. -/
def sortDesc : List Message → List Message
  | [] => []
  | x :: xs => insertDesc x (sortDesc xs)

/-- `get_conversation_history` of `routers/whatsapp.py`: latest `limit`
messages of the user in descending order, then `reversed` and projected to
`{role, content}` dicts. -/
def get_conversation_history (s : Store) (user_id : Nat) (limit : Nat) :
    List ChatMsg :=
  let messages :=
    (sortDesc (s.messages.filter (fun m => m.user_id == user_id))).take limit
  (messages.reverse).map (fun m => ⟨m.role.value, m.content⟩)

/-! ### Completion Client (`services/ai_service.py`) -/

def DEFAULT_MODEL : String := "llama-3.3-70b-versatile"

/-- `API_TIMEOUT = 30.0` seconds (the fixed completion-call budget). -/
def API_TIMEOUT : Nat := 30

def MAX_HISTORY_LENGTH : Nat := 10

def MAX_RESPONSE_TOKENS : Nat := 500

/-- The fixed system prompt of `AIService._build_messages`. -/
def SYSTEM_PROMPT : String :=
  "You are Dr. Health Assistant, a trusted medical consultant specializing in health guidance via WhatsApp.\n\n"
  ++ "YOUR EXPERTISE:\n- Diagnose symptoms and suggest appropriate treatments\n"
  ++ "- Provide preventive care and lifestyle recommendations\n"
  ++ "- Offer DO\x27s and DON\x27Ts for common health conditions\n"
  ++ "- Guide on when to seek emergency medical attention\n\n"
  ++ "COMMUNICATION STYLE:\n- Professional yet warm and empathetic\n"
  ++ "- Use clear, simple language without medical jargon\n"
  ++ "- Keep responses concise (2-3 short paragraphs maximum)\n"
  ++ "- Ask targeted follow-up questions when needed (severity, duration, related symptoms)\n"
  ++ "- Be confident and authoritative in your guidance\n\n"
  ++ "CRITICAL RULES:\n"
  ++ "1. For emergencies (chest pain, breathing difficulty, severe bleeding, stroke signs): Immediately advise emergency room visit\n"
  ++ "2. Only mention consulting a doctor when truly necessary (serious conditions, persistent symptoms, or diagnosis needed)\n"
  ++ "3. Provide actionable advice - medications, home remedies, lifestyle changes\n"
  ++ "4. Never sound robotic or repetitive with disclaimers\n"
  ++ "5. Be natural, conversational, and trustworthy like a real doctor\n\n"
  ++ "Respond as a knowledgeable physician would - confident, helpful, and focused on solving the patient\x27s concern."

/-- `l[-n:]` in Python: the last `n` elements (whole list when shorter). -/
def takeLast (n : Nat) (l : List α) : List α := l.drop (l.length - n)

/-- `AIService._build_messages`: fixed system prompt, then the last
`MAX_HISTORY_LENGTH` history entries, then the current message as the final
`user` entry.  (The `msg.get("role"/"content")` projections are identities on
well-formed `{role, content}` dicts, which is all the callers produce.) -/
def build_messages (current_message : String) (history : List ChatMsg) :
    List ChatMsg :=
  ⟨"system", SYSTEM_PROMPT⟩ ::
    (takeLast MAX_HISTORY_LENGTH history ++ [⟨"user", current_message⟩])

/-- Outcome of the one `httpx` POST that `AIService._call_groq_api` makes:
an HTTP response (whose body either parses to
`json()["choices"][0]["message"]["content"]` or does not), a
`httpx.TimeoutException`, or any other raised exception. -/
inductive GroqOutcome where
  | response (status : Nat) (wellFormed : Bool) (content : String)
  | timeout
  | exn
deriving DecidableEq, Repr

/-- `AIService._handle_api_error`: map a non-200 status to a user-friendly
fallback sentence. -/
def handle_api_error (status : Nat) : String :=
  if status == 401 then
    "Sorry, AI service authentication failed. Please contact support."
  else if status == 429 then
    "Sorry, too many requests. Please try again in a moment."
  else
    "Sorry, I\x27m having trouble connecting. Please try again later."

/-- `AIService._call_groq_api`: POST to Groq; non-200 goes through
`_handle_api_error`; a malformed 200 body raises inside the `try` and is
caught by the generic handler; timeout and any other exception return fixed
fallback sentences.  Total — never raises past its boundary. -/
def call_groq_api (o : GroqOutcome) (message : String)
    (history : List ChatMsg) : String :=
  match o with
  | .response status wellFormed content =>
    if status ≠ 200 then handle_api_error status
    else if wellFormed then content
    else "Sorry, I encountered an error. Please try again later."
  | .timeout => "Sorry, my response took too long. Please try again."
  | .exn => "Sorry, I encountered an error. Please try again later."

/-- `AIService.generate_response`: default the history to `[]`, delegate. -/
def generate_response (o : GroqOutcome) (message : String)
    (conversation_history : Option (List ChatMsg)) : String :=
  call_groq_api o message (conversation_history.getD [])

/-! ### Delivery Client and pipeline environment -/

/-- Oracle outcomes for the external services during one webhook request:
what the Groq POST does, whether `whatsapp_service.send_message` succeeds
(on provider failure it raises, which `process_message` catches), and
whether `mark_as_read` succeeds (it swallows errors and returns a Bool). -/
structure Env where
  groq : GroqOutcome
  sendOk : Bool
  markReadOk : Bool
deriving DecidableEq, Repr

/-- Trace of outward calls made while processing: each chat-completion POST
(with the `messages` array it carried), each `send_message` attempt
(recipient, body, success), and each `mark_as_read` attempt (message id). -/
structure Effects where
  prompts : List (List ChatMsg)
  sends : List (String × String × Bool)
  markReads : List (Option String)
deriving DecidableEq, Repr

def Effects.empty : Effects := ⟨[], [], []⟩

def Effects.append (a b : Effects) : Effects :=
  ⟨a.prompts ++ b.prompts, a.sends ++ b.sends, a.markReads ++ b.markReads⟩

/-- One entry of `value.messages[]` in the Meta webhook payload, as read by
`process_message` via `.get`: every field may be absent. -/
structure MessageData where
  id : Option String
  sender : Option String
  type : Option String
  text_body : Option String
deriving DecidableEq, Repr

/-- One entry of `value.contacts[]`; `contacts[0].get("profile", {}).get("name")`
only ever reads the profile name. -/
structure Contact where
  profile_name : Option String
deriving DecidableEq, Repr

/-- One `value` object inside `entry[].changes[]`. -/
structure Change where
  messages : List MessageData
  contacts : List Contact
deriving DecidableEq, Repr

/-- One element of the top-level `entry[]` array. -/
structure Entry where
  changes : List Change
deriving DecidableEq, Repr

/-- A parsed webhook JSON body: the top-level `object` discriminator plus the
nested `entry[] → changes[] → value` structure. -/
structure Payload where
  object : Option String
  entry : List Entry
deriving DecidableEq, Repr

/-- Result of running (part of) the unpack-and-process sequence: the store
after all commits so far, the outward calls made, and `some e` when an
uncaught Python exception `e` escaped (aborting the remaining iterations). -/
structure ProcResult where
  store : Store
  eff : Effects
  err : Option String
deriving DecidableEq, Repr

/-- `contacts[0].get("profile", {}).get("name")` when `contacts` is
non-empty, else `None` (lines 144-147 of `routers/whatsapp.py`). -/
def sender_name_of (contacts : List Contact) : Option String :=
  match contacts with
  | [] => none
  | c :: _ => c.profile_name

/-- `process_message` of `routers/whatsapp.py` for a single inbound message.

Mirrors the source step by step: skip non-`text` types; skip empty body;
`sender_phone[-4:]` in the log line raises `TypeError` when `from` is absent
(`None` is not subscriptable) — the only uncaught exception in this function;
resolve/create the user; commit the inbound Message; best-effort mark-as-read;
fetch the last-10 history; call the Completion Client (total, never raises);
commit the assistant Message; attempt delivery inside `try/except` so a
delivery failure is logged and swallowed. -/

def process_message (env : Env) (message_data : MessageData)
    (contacts : List Contact) (s : Store) : ProcResult :=
  let message_id := message_data.id
  let message_type := message_data.type
  if message_type ≠ some "text" then ⟨s, .empty, none⟩
  else
    let message_text := message_data.text_body.getD ""
    if message_text = "" then ⟨s, .empty, none⟩
    else
      match message_data.sender with
      | none =>
        ⟨s, .empty, some "TypeError: NoneType object is not subscriptable"⟩
      | some sender_phone =>
        let sender_name := sender_name_of contacts
        let (user, s1) := get_or_create_user s sender_phone sender_name
        let (_, s2) := s1.addMessage user.id .user message_text message_id
        let conversation_history := get_conversation_history s2 user.id 10
        let ai_response :=
          generate_response env.groq message_text (some conversation_history)
        let (_, s3) := s2.addMessage user.id .assistant ai_response none
        ⟨s3,
         ⟨[build_messages message_text conversation_history],
          [(sender_phone, ai_response, env.sendOk)],
          [message_id]⟩,
         none⟩

/-- The inner `for message_data in messages` loop of
`process_webhook_entries`; an uncaught exception aborts the rest. -/
def process_messages_loop (env : Env) (mds : List MessageData)
    (contacts : List Contact) (s : Store) : ProcResult :=
  match mds with
  | [] => ⟨s, .empty, none⟩
  | md :: rest =>
    let r := process_message env md contacts s
    match r.err with
    | some e => ⟨r.store, r.eff, some e⟩
    | none =>
      let r2 := process_messages_loop env rest contacts r.store
      ⟨r2.store, r.eff.append r2.eff, r2.err⟩

/-- The `for change in entry.get("changes", [])` loop. -/
def process_changes_loop (env : Env) (cs : List Change) (s : Store) :
    ProcResult :=
  match cs with
  | [] => ⟨s, .empty, none⟩
  | c :: rest =>
    -- `if not messages: continue` — processing an empty list is the same no-op
    let r := process_messages_loop env c.messages c.contacts s
    match r.err with
    | some e => ⟨r.store, r.eff, some e⟩
    | none =>
      let r2 := process_changes_loop env rest r.store
      ⟨r2.store, r.eff.append r2.eff, r2.err⟩

/-- The `for entry in body.get("entry", [])` loop. -/
def process_entries_loop (env : Env) (es : List Entry) (s : Store) :
    ProcResult :=
  match es with
  | [] => ⟨s, .empty, none⟩
  | e :: rest =>
    let r := process_changes_loop env e.changes s
    match r.err with
    | some ex => ⟨r.store, r.eff, some ex⟩
    | none =>
      let r2 := process_entries_loop env rest r.store
      ⟨r2.store, r.eff.append r2.eff, r2.err⟩

/-- `process_webhook_entries` of `routers/whatsapp.py`. -/
def process_webhook_entries (env : Env) (body : Payload) (s : Store) :
    ProcResult :=
  process_entries_loop env body.entry s

/-- Status body of the webhook POST handler's JSON response. -/
inductive WebhookStatus where
  | ok
  | success
  | error (message : String)
deriving DecidableEq, Repr

/-- An HTTP response: status code and response body. -/
structure WebhookResponse where
  status_code : Nat
  body : WebhookStatus
deriving DecidableEq, Repr

/-- Final state of one `POST /webhook/whatsapp` request. -/
structure WebhookResult where
  store : Store
  eff : Effects
  resp : WebhookResponse
deriving DecidableEq, Repr

/-- `whatsapp_webhook` of `routers/whatsapp.py`: ignore payloads whose
`object` is not `"whatsapp_business_account"` with `{"status": "ok"}`;
otherwise process all entries; the outer `try/except` maps any escaped
exception to `{"status": "error", "message": str(e)}`.  FastAPI returns all
three dict bodies with HTTP status 200. -/
def whatsapp_webhook (env : Env) (body : Payload) (s : Store) :
    WebhookResult :=
  if body.object ≠ some "whatsapp_business_account" then
    ⟨s, .empty, ⟨200, .ok⟩⟩
  else
    let r := process_webhook_entries env body s
    match r.err with
    | none => ⟨r.store, r.eff, ⟨200, .success⟩⟩
    | some e => ⟨r.store, r.eff, ⟨200, .error e⟩⟩

/-- Python `str()` as applied to an optional query parameter:
`str(None) = "None"`. -/
def pyStr : Option String → String
  | none => "None"
  | some s => s

/-- A plain-text HTTP response of the verification endpoint. -/
structure VerifyResponse where
  status_code : Nat
  body : String
deriving DecidableEq, Repr

/-- `whatsapp_webhook_verify` of `routers/whatsapp.py`: echo
`str(challenge)` with status 200 iff `hub.mode == "subscribe"` and
`hub.verify_token` equals the configured `META_VERIFY_TOKEN`; otherwise
403 / "Invalid token". -/
def whatsapp_webhook_verify (mode token challenge : Option String)
    (verify_token : String) : VerifyResponse :=
  if mode = some "subscribe" ∧ token = some verify_token then
    ⟨200, pyStr challenge⟩
  else
    ⟨403, "Invalid token"⟩

/-! ### Admin direct AI chat (`routers/admin.py`) -/

/-- A raised FastAPI/Starlette `HTTPException`. -/
structure HTTPError where
  status_code : Nat
  detail : String
deriving DecidableEq, Repr

/-- Python `str(e)` on a Starlette `HTTPException`:
`f"{self.status_code}: {self.detail}"`. -/
def HTTPError.str (e : HTTPError) : String :=
  toString e.status_code ++ ": " ++ e.detail

/-- The success dict returned by `ai_chat`. -/
structure AiChatSuccess where
  status : String
  message : String
  response : String
deriving DecidableEq, Repr

/-- Python `str.strip()`: drop leading and trailing whitespace. -/
def pyStrip (s : String) : String :=
  ⟨((s.data.dropWhile Char.isWhitespace).reverse.dropWhile
      Char.isWhitespace).reverse⟩

/-- The body of the `try:` block in `ai_chat` of `routers/admin.py`:
strip the message, raise `HTTPException(400)` when empty, else return the
Completion Client's reply obtained with empty history. -/
def ai_chat_inner (groq : GroqOutcome) (request_message : Option String) :
    Except HTTPError AiChatSuccess :=
  let message := pyStrip (request_message.getD "")
  if message = "" then .error ⟨400, "Message cannot be empty"⟩
  else .ok ⟨"success", message, generate_response groq message (some [])⟩

/-- `ai_chat` (`POST /admin/ai-chat`): the `except Exception` clause catches
every exception raised in the `try:` block — including the
`HTTPException(400)` raised for an empty message, `HTTPException` being a
subclass of `Exception` — and re-raises `HTTPException(500,
f"Failed to get AI response: {str(e)}")`. -/
def ai_chat (groq : GroqOutcome) (request_message : Option String) :
    Except HTTPError AiChatSuccess :=
  match ai_chat_inner groq request_message with
  | .ok r => .ok r
  | .error e => .error ⟨500, "Failed to get AI response: " ++ e.str⟩

/-- Strict chronology: the `messages` table rows in insertion order carry
strictly increasing `created_at` stamps (`utcnow` across sequential awaits). -/
@[reducible]
def Chrono (l : List Message) : Prop :=
  l.Pairwise (fun a b => a.created_at < b.created_at)

/-! ### Helper lemmas -/

theorem insertDesc_of_lt (m : Message) (l : List Message)
    (h : ∀ y ∈ l, m.created_at < y.created_at) :
    insertDesc m l = l ++ [m] := by
  induction l with
  | nil => rfl
  | cons x xs ih =>
    have hx : x.created_at > m.created_at := h x (by simp)
    rw [insertDesc, if_neg (by omega)]
    simp [ih (fun y hy => h y (by simp [hy]))]

theorem sortDesc_of_chrono (l : List Message) (h : Chrono l) :
    sortDesc l = l.reverse := by
  induction l with
  | nil => rfl
  | cons x xs ih =>
    rw [sortDesc, ih h.of_cons,
        insertDesc_of_lt x xs.reverse (fun y hy => (List.pairwise_cons.mp h).1 y
          (by simpa using hy))]
    simp

/-- With strictly chronological storage, `get_conversation_history` is the
last `limit` of the user's messages in insertion order, projected to
`{role, content}`. -/
theorem conversation_history_eq (s : Store) (uid limit : Nat)
    (h : Chrono s.messages) :
    get_conversation_history s uid limit =
      (takeLast limit (s.messages.filter (fun m => m.user_id == uid))).map
        (fun m => ⟨m.role.value, m.content⟩) := by
  unfold get_conversation_history takeLast
  rw [sortDesc_of_chrono _ (h.filter _)]
  simp only [List.take_reverse, List.reverse_reverse]

theorem find?_append_none {p : α → Bool} {l1 : List α} (l2 : List α)
    (h : l1.find? p = none) : (l1 ++ l2).find? p = l2.find? p := by
  induction l1 with
  | nil => rfl
  | cons a l ih =>
    rw [List.find?_eq_none] at h
    have ha : ¬ p a = true := h a (by simp)
    rw [List.cons_append, List.find?_cons_of_neg _ ha]
    exact ih (List.find?_eq_none.mpr (fun x hx => h x (by simp [hx])))

/-- Resolving a user never touches the `messages` table, never decreases the
clock, and never changes the message id sequence. -/
theorem get_or_create_user_frame (s : Store) (p : String) (n : Option String) :
    (get_or_create_user s p n).2.messages = s.messages ∧
    s.clock ≤ (get_or_create_user s p n).2.clock ∧
    (get_or_create_user s p n).2.nextMessageId = s.nextMessageId := by
  unfold get_or_create_user
  cases hf : s.findUserByPhone p with
  | none => simp [Store.createUser]
  | some u =>
    cases n with
    | none => simp
    | some nm =>
      by_cases h1 : nm = ""
      · simp [h1]
      · by_cases h2 : u.name = some nm
        · simp [h1, h2]
        · simp [h1, h2, Store.setUserName]

/-- Unfolds `process_message` past its guards on the text path. -/
theorem process_message_text_eq (env : Env) (md : MessageData)
    (contacts : List Contact) (s : Store) (t ph : String)
    (htype : md.type = some "text") (hbody : md.text_body = some t)
    (ht : ¬ t = "") (hfrom : md.sender = some ph) :
    process_message env md contacts s =
      (let us := get_or_create_user s ph (sender_name_of contacts)
       let ms := us.2.addMessage us.1.id .user t md.id
       let hist := get_conversation_history ms.2 us.1.id 10
       let ai := generate_response env.groq t (some hist)
       ⟨(ms.2.addMessage us.1.id .assistant ai none).2,
        ⟨[build_messages t hist], [(ph, ai, env.sendOk)], [md.id]⟩,
        none⟩) := by
  unfold process_message
  rw [htype, hbody, hfrom]
  simp [ht]

/-- Renaming the resolved user by id does not change what a lookup by the
same phone number finds (apart from the new name), provided row ids are
unique. -/
theorem find?_map_setName (l : List User) (phone : String) (u : User)
    (n : String)
    (hfind : l.find? (fun v => v.phone_number == phone) = some u)
    (hids : l.Pairwise (fun a b => a.id ≠ b.id)) :
    (l.map (fun v => if v.id == u.id then { v with name := some n } else v)).find?
        (fun v => v.phone_number == phone) =
      some { u with name := some n } := by
  induction l with
  | nil => simp at hfind
  | cons a l ih =>
    by_cases ha : a.phone_number == phone
    · simp only [List.find?_cons, ha] at hfind
      obtain rfl : a = u := by simpa using hfind
      simp [List.find?_cons, ha]
    · have ha' : (a.phone_number == phone) = false := by simpa using ha
      simp only [List.find?_cons, ha'] at hfind
      have hu : u ∈ l := List.mem_of_find?_eq_some hfind
      have hne : a.id ≠ u.id := (List.pairwise_cons.mp hids).1 u hu
      simp only [List.map_cons]
      rw [if_neg (by simpa using hne)]
      simp only [List.find?_cons, ha']
      exact ih hfind hids.of_cons

/-! ### Claim theorems -/

/-- C7: for every `(mode, token, challenge)` query triple, the verification
endpoint responds 200 with a plain-text body equal to the literal challenge
string iff `mode = "subscribe"` and `token` equals the configured
verify-token; in every other case it responds 403 with body
"Invalid token". -/
theorem verification_endpoint_correct (verify_token : String)
    (mode token : Option String) (challenge : String) :
    whatsapp_webhook_verify mode token (some challenge) verify_token =
      if mode = some "subscribe" ∧ token = some verify_token then
        ⟨200, challenge⟩
      else ⟨403, "Invalid token"⟩ := by
  unfold whatsapp_webhook_verify
  split <;> simp [pyStr]

/-- C2: for every input message and history, `generate_response` returns a
string (it is a total function — the embedding of the `try/except` that
never lets an error past the boundary), and the returned string is the
authentication-failed fallback on HTTP 401, the too-many-requests fallback
on 429, the took-too-long fallback on timeout of the fixed
`API_TIMEOUT = 30` budget, and a generic error fallback on any other
failure (other non-200 status, unparseable 200 body, or any other
exception); a well-formed 200 response returns its content. -/
theorem generate_response_fallbacks (msg : String) (hist : List ChatMsg) :
    (∀ w c, generate_response (.response 401 w c) msg (some hist) =
      "Sorry, AI service authentication failed. Please contact support.") ∧
    (∀ w c, generate_response (.response 429 w c) msg (some hist) =
      "Sorry, too many requests. Please try again in a moment.") ∧
    (generate_response .timeout msg (some hist) =
      "Sorry, my response took too long. Please try again." ∧ API_TIMEOUT = 30) ∧
    (∀ st w c, st ≠ 200 → st ≠ 401 → st ≠ 429 →
      generate_response (.response st w c) msg (some hist) =
        "Sorry, I\x27m having trouble connecting. Please try again later.") ∧
    (generate_response .exn msg (some hist) =
      "Sorry, I encountered an error. Please try again later.") ∧
    (∀ c, generate_response (.response 200 false c) msg (some hist) =
      "Sorry, I encountered an error. Please try again later.") ∧
    (∀ c, generate_response (.response 200 true c) msg (some hist) = c) := by
  refine ⟨fun w c => rfl, fun w c => rfl, ⟨rfl, rfl⟩, ?_, rfl, fun c => rfl,
    fun c => rfl⟩
  intro st w c h200 h401 h429
  simp [generate_response, call_groq_api, handle_api_error, h200, h401, h429]

/-- Witness for C2 at a concrete input: a 503 response yields the generic
connection-trouble fallback. -/
theorem generate_response_fallbacks_witness :
    generate_response (.response 503 true "ignored") "hi" (some []) =
      "Sorry, I\x27m having trouble connecting. Please try again later." :=
  (generate_response_fallbacks "hi" []).2.2.2.1 503 true "ignored"
    (by decide) (by decide) (by decide)

/-- C9: the claim says an empty-after-trimming admin chat message fails with
BadRequest (HTTP 400).  The code raises `HTTPException(400)` inside a
`try:` block whose `except Exception` clause catches it (an
`HTTPException` is an `Exception`) and re-raises it as a 500; evaluating
the handler at an all-whitespace message shows the 500 response. -/
theorem ai_chat_empty_message_gives_500 (groq : GroqOutcome) :
    ai_chat groq (some "   ") =
      .error ⟨500, "Failed to get AI response: 400: Message cannot be empty"⟩ :=
  rfl

/-- C6: a webhook message entry whose `type` is not `"text"`, or whose text
body is empty, is a complete no-op: the store (all Users and Messages) is
returned unchanged, and the effect trace is empty — zero Messages created,
zero Completion Client calls, zero Delivery Client calls, zero mark-read
calls. -/
theorem non_text_or_empty_skip (env : Env) (md : MessageData)
    (contacts : List Contact) (s : Store)
    (h : md.type ≠ some "text" ∨ md.text_body.getD "" = "") :
    process_message env md contacts s = ⟨s, .empty, none⟩ := by
  unfold process_message
  rcases h with h | h
  · rw [if_pos h]
  · by_cases ht : md.type ≠ some "text"
    · rw [if_pos ht]
    · rw [if_neg ht]
      simp only [h, if_pos]

/-- Witness for C6: an `image` message entry leaves a one-user store
untouched and produces no effects. -/
theorem non_text_or_empty_skip_witness :
    ((MessageData.mk (some "wamid.9") (some "15551234567") (some "image")
        none).type ≠ some "text" ∨
      (MessageData.mk (some "wamid.9") (some "15551234567") (some "image")
        none).text_body.getD "" = "") ∧
    process_message ⟨.timeout, true, true⟩
      ⟨some "wamid.9", some "15551234567", some "image", none⟩ [] emptyStore =
      ⟨emptyStore, .empty, none⟩ :=
  ⟨Or.inl (by decide),
   non_text_or_empty_skip _ _ _ _ (Or.inl (by decide))⟩

/-- C3: the webhook POST handler always answers HTTP 200 with a status
body: a payload whose `object` discriminator is not
`"whatsapp_business_account"` is acknowledged `{"status": "ok"}` with no
processing and no effects; when processing finishes without an uncaught
exception the body is `{"status": "success"}`; when an exception escapes
the unpack-and-process sequence the body is `{"status": "error", ...}` —
never a non-2xx response. -/
theorem webhook_always_200 (env : Env) (body : Payload) (s : Store) :
    (whatsapp_webhook env body s).resp.status_code = 200 ∧
    (body.object ≠ some "whatsapp_business_account" →
      whatsapp_webhook env body s = ⟨s, .empty, ⟨200, .ok⟩⟩) ∧
    (body.object = some "whatsapp_business_account" →
      ((process_webhook_entries env body s).err = none →
        (whatsapp_webhook env body s).resp = ⟨200, .success⟩) ∧
      (∀ e, (process_webhook_entries env body s).err = some e →
        (whatsapp_webhook env body s).resp = ⟨200, .error e⟩)) := by
  by_cases hobj : body.object = some "whatsapp_business_account"
  · have hne : ¬ body.object ≠ some "whatsapp_business_account" := by
      simp [hobj]
    refine ⟨?_, fun h => absurd hobj h, fun _ => ⟨fun hn => ?_, fun e he => ?_⟩⟩
    · unfold whatsapp_webhook
      rw [if_neg hne]
      cases herr : (process_webhook_entries env body s).err <;> simp [herr]
    · unfold whatsapp_webhook
      rw [if_neg hne]
      simp [hn]
    · unfold whatsapp_webhook
      rw [if_neg hne]
      simp [he]
  · refine ⟨?_, fun _ => ?_, fun h => absurd h hobj⟩ <;>
      (unfold whatsapp_webhook; rw [if_pos hobj])

/-- Witness for C3: a provider test payload with `object = "test"` is
acknowledged with `{"status": "ok"}` and nothing happens. -/
theorem webhook_always_200_witness :
    whatsapp_webhook ⟨.timeout, true, true⟩ ⟨some "test", []⟩ emptyStore =
      ⟨emptyStore, .empty, ⟨200, .ok⟩⟩ :=
  (webhook_always_200 ⟨.timeout, true, true⟩ ⟨some "test", []⟩ emptyStore).2.1
    (by decide)

/-- C5: resolving a phone number not yet in the store twice with the same
name yields the same User id both times, the second call is a pure read
(the store is unchanged by it), and exactly one User record with that phone
number was created. -/
theorem user_resolution_idempotent (s : Store) (phone : String)
    (name : Option String)
    (h : s.users.all (fun u => u.phone_number != phone) = true) :
    (get_or_create_user (get_or_create_user s phone name).2 phone name).1.id =
      (get_or_create_user s phone name).1.id ∧
    (get_or_create_user (get_or_create_user s phone name).2 phone name).2 =
      (get_or_create_user s phone name).2 ∧
    (get_or_create_user s phone name).2.users.length = s.users.length + 1 ∧
    ((get_or_create_user s phone name).2.users.filter
        (fun u => u.phone_number == phone)).length = 1 := by
  have hnotin : ∀ u ∈ s.users, ¬ (u.phone_number == phone) = true := by
    intro u hu
    simpa using List.all_eq_true.mp h u hu
  have hnone : s.users.find? (fun u => u.phone_number == phone) = none :=
    List.find?_eq_none.mpr hnotin
  have e1 : get_or_create_user s phone name = s.createUser phone name := by
    unfold get_or_create_user Store.findUserByPhone
    rw [hnone]
  have hfind1 : (s.createUser phone name).2.findUserByPhone phone =
      some (s.createUser phone name).1 := by
    show ((s.users ++ [_]).find? _) = _
    rw [find?_append_none _ hnone]
    simp [List.find?_cons, Store.createUser]
  have e2 : get_or_create_user (s.createUser phone name).2 phone name =
      ((s.createUser phone name).1, (s.createUser phone name).2) := by
    unfold get_or_create_user
    rw [hfind1]
    cases name with
    | none => rfl
    | some n =>
      show (if n ≠ "" ∧ (s.createUser phone (some n)).1.name ≠ some n then _
        else _) = _
      rw [if_neg (by simp [Store.createUser])]
  refine ⟨by rw [e1, e2], by rw [e1, e2], ?_, ?_⟩
  · rw [e1]
    simp [Store.createUser]
  · rw [e1]
    show ((s.users ++ [_]).filter _).length = 1
    rw [List.filter_append, List.filter_eq_nil_iff.mpr hnotin]
    simp [List.filter]

/-- Witness for C5: resolving a fresh phone number twice on the empty
store. -/
theorem user_resolution_idempotent_witness :
    (emptyStore.users.all (fun u => u.phone_number != "15551234567") = true) ∧
    (get_or_create_user
        (get_or_create_user emptyStore "15551234567" (some "Dev")).2
        "15551234567" (some "Dev")).1.id =
      (get_or_create_user emptyStore "15551234567" (some "Dev")).1.id ∧
    (get_or_create_user
        (get_or_create_user emptyStore "15551234567" (some "Dev")).2
        "15551234567" (some "Dev")).2 =
      (get_or_create_user emptyStore "15551234567" (some "Dev")).2 ∧
    (get_or_create_user emptyStore "15551234567" (some "Dev")).2.users.length =
      emptyStore.users.length + 1 ∧
    ((get_or_create_user emptyStore "15551234567" (some "Dev")).2.users.filter
        (fun u => u.phone_number == "15551234567")).length = 1 :=
  ⟨by decide,
   user_resolution_idempotent emptyStore "15551234567" (some "Dev")
     (by decide)⟩

/-- C8: for an existing User, resolving with a non-empty name different
from the stored one updates the stored name to the new value (lookup by the
same phone now returns the renamed record, all other rows staying present),
while resolving with an absent or empty name leaves the store completely
unchanged. -/
theorem name_update_rules (s : Store) (phone : String) (u : User)
    (hfind : s.findUserByPhone phone = some u)
    (hids : s.users.Pairwise (fun a b => a.id ≠ b.id)) :
    (∀ n, n ≠ "" → u.name ≠ some n →
      (get_or_create_user s phone (some n)).1 = { u with name := some n } ∧
      (get_or_create_user s phone (some n)).2.findUserByPhone phone =
        some { u with name := some n } ∧
      ∀ v ∈ s.users, v.id ≠ u.id →
        v ∈ (get_or_create_user s phone (some n)).2.users) ∧
    get_or_create_user s phone none = (u, s) ∧
    get_or_create_user s phone (some "") = (u, s) := by
  refine ⟨fun n hn hne => ?_, ?_, ?_⟩
  · have e : get_or_create_user s phone (some n) =
        ({ u with name := some n }, s.setUserName u.id n) := by
      unfold get_or_create_user
      rw [hfind]
      show (if n ≠ "" ∧ u.name ≠ some n then _ else _) = _
      rw [if_pos ⟨hn, hne⟩]
    refine ⟨by rw [e], ?_, ?_⟩
    · rw [e]
      exact find?_map_setName s.users phone u n hfind hids
    · intro v hv hvne
      rw [e]
      show v ∈ s.users.map
        (fun w => if w.id == u.id then { w with name := some n } else w)
      have hfix :
          (fun w : User =>
            if w.id == u.id then { w with name := some n } else w) v = v := by
        simp only [if_neg]
        rw [if_neg (by simpa using hvne)]
      exact hfix ▸ List.mem_map_of_mem _ hv
  · unfold get_or_create_user
    rw [hfind]
  · unfold get_or_create_user
    rw [hfind]
    show (if ("" : String) ≠ "" ∧ u.name ≠ some "" then _ else _) = _
    rw [if_neg (by simp)]

/-- Witness for C8: renaming the stored "Alice" to "Bob" via resolution. -/
theorem name_update_rules_witness :
    (get_or_create_user
        ⟨[⟨1, "15550001111", some "Alice", true, 0, 0⟩], [], 2, 1, 1⟩
        "15550001111" (some "Bob")).2.findUserByPhone "15550001111" =
      some ⟨1, "15550001111", some "Bob", true, 0, 0⟩ :=
  ((name_update_rules
      ⟨[⟨1, "15550001111", some "Alice", true, 0, 0⟩], [], 2, 1, 1⟩
      "15550001111" ⟨1, "15550001111", some "Alice", true, 0, 0⟩
      (by decide) (by simp)).1 "Bob" (by decide) (by decide)).2.1

/-- C4: with strictly chronological storage, the history fed to the
Completion Client is the user's stored Messages in `created_at`-ascending
(insertion) order, truncated to the most recent `limit` when more exist —
the store's descending "latest N" ordering is reversed before prompt
assembly. -/
theorem history_chronological_truncated (s : Store) (uid limit : Nat)
    (h : Chrono s.messages) :
    get_conversation_history s uid limit =
      (takeLast limit (s.messages.filter (fun m => m.user_id == uid))).map
        (fun m => ⟨m.role.value, m.content⟩) :=
  conversation_history_eq s uid limit h

/-- Witness for C4: Messages inserted in order A, B, C yield the history
exactly `[A, B, C]`. -/
theorem history_chronological_truncated_witness :
    Chrono (((emptyStore.addMessage 1 .user "A" none).2.addMessage 1
        .assistant "B" none).2.addMessage 1 .user "C" none).2.messages ∧
    get_conversation_history
        (((emptyStore.addMessage 1 .user "A" none).2.addMessage 1
          .assistant "B" none).2.addMessage 1 .user "C" none).2 1 10 =
      [⟨"user", "A"⟩, ⟨"assistant", "B"⟩, ⟨"user", "C"⟩] :=
  ⟨by decide,
   (history_chronological_truncated
      (((emptyStore.addMessage 1 .user "A" none).2.addMessage 1
        .assistant "B" none).2.addMessage 1 .user "C" none).2 1 10
      (by decide)).trans (by decide)⟩

/-- A webhook payload carrying exactly one message entry whose processing
raises no exception: the handler's result is that message's processing
result with a success response. -/
theorem single_message_webhook (env : Env) (md : MessageData)
    (contacts : List Contact) (s : Store)
    (herr : (process_message env md contacts s).err = none) :
    whatsapp_webhook env
        ⟨some "whatsapp_business_account", [⟨[⟨[md], contacts⟩]⟩]⟩ s =
      ⟨(process_message env md contacts s).store,
       (process_message env md contacts s).eff, ⟨200, .success⟩⟩ := by
  have happ : ∀ e : Effects, e.append .empty = e := by
    intro e
    simp [Effects.append, Effects.empty]
  unfold whatsapp_webhook
  rw [if_neg (by simp)]
  unfold process_webhook_entries
  simp only [process_entries_loop, process_changes_loop,
    process_messages_loop, herr, happ]

/-- C1: for an inbound text message reaching the delivery step, a Delivery
Client failure is contained: the user and assistant Messages appended by
the pipeline remain persisted — the final store's message table is the
initial one plus exactly those two rows, with no rollback of any prior
pipeline state — the one failed send attempt is recorded, and the webhook
handler still acknowledges the provider with HTTP 200
`{"status": "success"}`. -/
theorem delivery_failure_containment (env : Env) (s : Store)
    (md : MessageData) (contacts : List Contact) (t ph : String)
    (hsend : env.sendOk = false)
    (htype : md.type = some "text") (hbody : md.text_body = some t)
    (ht : ¬ t = "") (hfrom : md.sender = some ph) :
    (whatsapp_webhook env
        ⟨some "whatsapp_business_account", [⟨[⟨[md], contacts⟩]⟩]⟩ s).resp =
      ⟨200, .success⟩ ∧
    ∃ um am : Message,
      (whatsapp_webhook env
          ⟨some "whatsapp_business_account", [⟨[⟨[md], contacts⟩]⟩]⟩
          s).store.messages = s.messages ++ [um, am] ∧
      um.role = .user ∧ um.content = t ∧ am.role = .assistant ∧
      (whatsapp_webhook env
          ⟨some "whatsapp_business_account", [⟨[⟨[md], contacts⟩]⟩]⟩
          s).eff.sends = [(ph, am.content, false)] := by
  have hpm := process_message_text_eq env md contacts s t ph htype hbody ht
    hfrom
  simp only [] at hpm
  have herr : (process_message env md contacts s).err = none := by rw [hpm]
  rw [single_message_webhook env md contacts s herr]
  obtain ⟨hmsg, -, -⟩ := get_or_create_user_frame s ph
    (sender_name_of contacts)
  have key : ∀ (s' : Store) (uid1 uid2 : Nat) (r1 r2 : MessageRole)
      (c1 c2 : String) (mid1 mid2 : Option String),
      ((s'.addMessage uid1 r1 c1 mid1).2.addMessage uid2 r2 c2 mid2).2.messages
        = s'.messages ++ [(s'.addMessage uid1 r1 c1 mid1).1,
            ((s'.addMessage uid1 r1 c1 mid1).2.addMessage uid2 r2 c2
              mid2).1] := by
    intro s' uid1 uid2 r1 r2 c1 c2 mid1 mid2
    simp [Store.addMessage]
  refine ⟨rfl, ?_⟩
  rw [hpm]
  exact ⟨_, _, by rw [key, hmsg], rfl, rfl, rfl, by rw [hsend]; rfl⟩

/-- Witness for C1: a concrete "Hello" message whose delivery fails; both
Messages persist and the handler still returns success. -/
theorem delivery_failure_containment_witness :
    (whatsapp_webhook ⟨.response 200 true "Hi!", false, true⟩
        ⟨some "whatsapp_business_account",
         [⟨[⟨[⟨some "wamid.1", some "15551234567", some "text",
            some "Hello"⟩], []⟩]⟩]⟩ emptyStore).resp = ⟨200, .success⟩ ∧
    ∃ um am : Message,
      (whatsapp_webhook ⟨.response 200 true "Hi!", false, true⟩
          ⟨some "whatsapp_business_account",
           [⟨[⟨[⟨some "wamid.1", some "15551234567", some "text",
              some "Hello"⟩], []⟩]⟩]⟩ emptyStore).store.messages =
        emptyStore.messages ++ [um, am] ∧
      um.role = .user ∧ um.content = "Hello" ∧ am.role = .assistant ∧
      (whatsapp_webhook ⟨.response 200 true "Hi!", false, true⟩
          ⟨some "whatsapp_business_account",
           [⟨[⟨[⟨some "wamid.1", some "15551234567", some "text",
              some "Hello"⟩], []⟩]⟩]⟩ emptyStore).eff.sends =
        [("15551234567", am.content, false)] :=
  delivery_failure_containment ⟨.response 200 true "Hi!", false, true⟩
    emptyStore ⟨some "wamid.1", some "15551234567", some "text", some "Hello"⟩
    [] "Hello" "15551234567" rfl rfl rfl (by decide) rfl

theorem takeLast_of_le {l : List α} {n : Nat} (h : l.length ≤ n) :
    takeLast n l = l := by
  unfold takeLast
  rw [Nat.sub_eq_zero_of_le h, List.drop_zero]

/-- C10: on the text path the inbound Message is committed before the
last-10 history is fetched, so the fetched history already ends with the
new message; prompt assembly then appends the new message again as the
final user-role entry, and therefore the one prompt sent to the completion
API ends with the new message text twice whenever the user's stored
history including the new message has at most 10 messages. -/
theorem inbound_committed_prompt_duplicate (env : Env) (s : Store)
    (md : MessageData) (contacts : List Contact) (t ph : String)
    (hchrono : Chrono s.messages)
    (hclock : ∀ m ∈ s.messages, m.created_at < s.clock)
    (htype : md.type = some "text") (hbody : md.text_body = some t)
    (ht : ¬ t = "") (hfrom : md.sender = some ph)
    (hcount : (s.messages.filter (fun m =>
        m.user_id == (get_or_create_user s ph
          (sender_name_of contacts)).1.id)).length + 1 ≤ 10) :
    (process_message env md contacts s).err = none ∧
    ∃ pre : List ChatMsg,
      (process_message env md contacts s).eff.prompts =
        [⟨"system", SYSTEM_PROMPT⟩ ::
          (pre ++ [⟨"user", t⟩, ⟨"user", t⟩])] := by
  have hpm := process_message_text_eq env md contacts s t ph htype hbody ht
    hfrom
  simp only [] at hpm
  obtain ⟨hmsg, hclk, -⟩ := get_or_create_user_frame s ph
    (sender_name_of contacts)
  set us := get_or_create_user s ph (sender_name_of contacts) with hus
  set ms := us.2.addMessage us.1.id .user t md.id with hms
  have hmsgs2 : ms.2.messages = s.messages ++ [ms.1] := by
    rw [hms]
    simp [Store.addMessage, hmsg]
  have hchrono2 : Chrono ms.2.messages := by
    rw [hmsgs2]
    refine List.pairwise_append.mpr ⟨hchrono, by simp, ?_⟩
    intro a ha b hb
    have hb' : b = ms.1 := by simpa using hb
    subst hb'
    have h2 : ms.1.created_at = us.2.clock := by
      rw [hms]
      rfl
    rw [h2]
    exact lt_of_lt_of_le (hclock a ha) hclk
  have huid : ms.1.user_id = us.1.id := by
    rw [hms]
    rfl
  have hist_eq : get_conversation_history ms.2 us.1.id 10 =
      ((s.messages.filter (fun m => m.user_id == us.1.id)).map
        (fun m => ⟨m.role.value, m.content⟩)) ++ [⟨"user", t⟩] := by
    rw [conversation_history_eq ms.2 us.1.id 10 hchrono2, hmsgs2,
      List.filter_append]
    have hf1 : [ms.1].filter (fun m => m.user_id == us.1.id) = [ms.1] := by
      simp [List.filter, huid]
    rw [hf1, takeLast_of_le (by simpa using hcount), List.map_append]
    have hproj : ms.1.role.value = "user" ∧ ms.1.content = t := by
      rw [hms]
      exact ⟨rfl, rfl⟩
    simp [hproj.1, hproj.2]
  refine ⟨by rw [hpm], ?_⟩
  rw [hpm]
  refine ⟨(s.messages.filter (fun m => m.user_id == us.1.id)).map
    (fun m => ⟨m.role.value, m.content⟩), ?_⟩
  show [build_messages t (get_conversation_history ms.2 us.1.id 10)] = _
  rw [hist_eq]
  unfold build_messages
  rw [takeLast_of_le (by simp [MAX_HISTORY_LENGTH]; omega)]
  simp

/-- Witness for C10: the first "hey" from a fresh user produces a prompt
ending with "hey" twice. -/
theorem inbound_committed_prompt_duplicate_witness :
    (process_message ⟨.timeout, true, true⟩
        ⟨some "wamid.7", some "15557654321", some "text", some "hey"⟩ []
        emptyStore).err = none ∧
    ∃ pre : List ChatMsg,
      (process_message ⟨.timeout, true, true⟩
          ⟨some "wamid.7", some "15557654321", some "text", some "hey"⟩ []
          emptyStore).eff.prompts =
        [⟨"system", SYSTEM_PROMPT⟩ ::
          (pre ++ [⟨"user", "hey"⟩, ⟨"user", "hey"⟩])] :=
  inbound_committed_prompt_duplicate ⟨.timeout, true, true⟩ emptyStore
    ⟨some "wamid.7", some "15557654321", some "text", some "hey"⟩ []
    "hey" "15557654321" (by decide) (by simp [emptyStore]) rfl rfl (by decide)
    rfl (by decide)
